import Mathlib

/-!
# whatsapp-clone backend: message store, status reconciliation, conversation ledger

A shallow embedding of `whatsapp-backend/index.js`, `whatsapp-backend/scripts/processPayloads.js`
and the three Mongoose models, followed by theorems about them.

Modelling conventions.

* A collection is the list of its documents in insertion order; `findOne` and
  `findOneAndUpdate` act on the first document that matches the filter.
* A JSON field read by the code is an `Option String`: `none` is an absent field
  (`undefined`), `some s` a string. JavaScript truthiness of such a value is `truthy`.
* A `Date` is its time value in milliseconds since the epoch; `none` stands for the
  Invalid Date, which Mongoose refuses to cast.
* `new Date()` reads a clock that is passed in explicitly.
* `io.emit` appends to the log `State.emitted`.
* `unreadCount` is a natural number: the code only adds one to it or sets it to zero.
* `_id` values are drawn from the counter `State.nextId`.
-/

namespace WhatsappClone

deriving instance DecidableEq for Except

/-! ## JavaScript helpers -/

/-- JavaScript truthiness of an optional string: absent and the empty string are falsy. -/
def truthy : Option String → Bool
  | some s => !(s == "")
  | none => false

/-- The chain `a || b || ... || ''` over optional strings: the first truthy operand, else `''`. -/
def firstTruthy : List (Option String) → String
  | [] => ""
  | a :: rest => if truthy a then a.getD "" else firstTruthy rest

/-- The chain `a || b` whose last operand may itself be absent. -/
def jsOr (a b : Option String) : Option String :=
  if truthy a then a else b

/-- Code points of `StrWhiteSpaceChar` (white space and line terminators), skipped by `parseInt`. -/
def isStrWhiteSpace (c : Char) : Bool :=
  [0x9, 0xA, 0xB, 0xC, 0xD, 0x20, 0xA0, 0x1680, 0x2000, 0x2001, 0x2002, 0x2003, 0x2004,
    0x2005, 0x2006, 0x2007, 0x2008, 0x2009, 0x200A, 0x2028, 0x2029, 0x202F, 0x205F, 0x3000,
    0xFEFF].contains c.toNat

/-- Value of a run of decimal digits, most significant first. -/
def digitsValue (ds : List Char) : Nat :=
  ds.foldl (fun acc c => 10 * acc + (c.toNat - 48)) 0

/-- Sign and remainder of the input of `parseInt` after the white space has been dropped. -/
def splitSign : List Char → Bool × List Char
  | '-' :: rest => (true, rest)
  | '+' :: rest => (false, rest)
  | cs => (false, cs)

/-- The call `parseInt(s, 10)`: leading white space is skipped, one optional sign is read, then
the longest run of decimal digits; `none` is `NaN` (no digit was found). -/
def parseInt10 (s : String) : Option Int :=
  let sc := splitSign (s.toList.dropWhile isStrWhiteSpace)
  let ds := sc.2.takeWhile Char.isDigit
  if ds.isEmpty then none
  else some (if sc.1 then -(digitsValue ds : Int) else (digitsValue ds : Int))

/-- Largest absolute time value of a `Date`, in milliseconds (`TimeClip`). -/
def maxTimeValue : Nat := 8640000000000000

/-- The constructor `new Date(ms)` on an integral number of milliseconds: the Invalid Date (`none`)
outside the range of `TimeClip`. Inside the range every value that occurs is an integer below
`2^53`, so the double arithmetic of `parseInt(..) * 1000` is exact; outside it the rounded product
is out of range as well. -/
def newDate (ms : Int) : Option Int :=
  if ms.natAbs ≤ maxTimeValue then some ms else none

/-- The expression `m.timestamp ? new Date(parseInt(m.timestamp, 10) * 1000) : new Date()`. -/
def entryTimestamp (timestamp : Option String) (now : Int) : Option Int :=
  if truthy timestamp then
    match parseInt10 (timestamp.getD "") with
    | some n => newDate (n * 1000)
    | none => none
  else some now

/-! ## Data model (`models/Message.js`, `models/Chat.js`, `models/Contact.js`) -/

/-- A stored document of the `processed_messages` collection. -/
structure Message where
  _id : Nat
  wa_id : String
  name : String
  direction : String
  timestamp : Int
  status : String
  type : String
  text : String
  mediaUrl : Option String
  mediaMime : Option String
  caption : Option String
  replyTo : Option Nat
  msg_id : Option String
  meta_msg_id : Option String
  deriving DecidableEq, Repr

/-- A stored document of the chats collection; `unreadCount` has the schema default 0. -/
structure Chat where
  wa_id : String
  name : Option String
  unreadCount : Nat
  deriving DecidableEq, Repr

/-- A stored document of the contacts collection. -/
structure Contact where
  wa_id : String
  displayName : Option String
  note : Option String
  avatarUrl : Option String
  deriving DecidableEq, Repr

/-- A broadcast made with `io.emit`. -/
inductive Event where
  | messagesNew (m : Message)
  | messagesUpdate (m : Message)
  deriving DecidableEq, Repr

/-- The three collections, the log of broadcasts and the source of fresh `_id`s. -/
structure State where
  messages : List Message
  chats : List Chat
  contacts : List Contact
  emitted : List Event
  nextId : Nat
  deriving DecidableEq, Repr

/-- What a caller put in `replyTo`: a value that casts to an ObjectId, or one that does not. -/
inductive ReplyRef where
  | oid (id : Nat)
  | uncastable (raw : String)
  deriving DecidableEq, Repr

/-- The object handed to `Message.create` or placed under `$setOnInsert`. -/
structure MessageDoc where
  wa_id : String
  name : String
  direction : String
  timestamp : Option Int
  status : String
  type : String
  text : String
  mediaUrl : Option String
  mediaMime : Option String
  caption : Option String
  replyTo : Option ReplyRef
  msg_id : Option String
  meta_msg_id : Option String
  deriving DecidableEq, Repr

/-- Failures raised by Mongoose before anything is written. -/
inductive DbError where
  | castDate
  | castObjectId
  | enumDirection
  | enumStatus
  | enumType
  deriving DecidableEq, Repr

/-- Casting of a document against `MessageSchema`: the timestamp must be a valid date and
`replyTo` must cast to an ObjectId. -/
def castDoc (d : MessageDoc) (id : Nat) : Except DbError Message :=
  match d.timestamp with
  | none => .error .castDate
  | some ts =>
    match d.replyTo with
    | some (.uncastable _) => .error .castObjectId
    | some (.oid r) =>
      .ok { _id := id, wa_id := d.wa_id, name := d.name, direction := d.direction,
            timestamp := ts, status := d.status, type := d.type, text := d.text,
            mediaUrl := d.mediaUrl, mediaMime := d.mediaMime, caption := d.caption,
            replyTo := some r, msg_id := d.msg_id, meta_msg_id := d.meta_msg_id }
    | none =>
      .ok { _id := id, wa_id := d.wa_id, name := d.name, direction := d.direction,
            timestamp := ts, status := d.status, type := d.type, text := d.text,
            mediaUrl := d.mediaUrl, mediaMime := d.mediaMime, caption := d.caption,
            replyTo := none, msg_id := d.msg_id, meta_msg_id := d.meta_msg_id }

/-- The enum validators of `MessageSchema`, run by `Message.create` (not by updates). -/
def validateEnums (m : Message) : Except DbError Unit :=
  if !(m.direction == "in" || m.direction == "out") then .error .enumDirection
  else if !(["sent", "delivered", "read", "failed", "unknown"].contains m.status) then
    .error .enumStatus
  else if !(m.type == "text" || m.type == "image") then .error .enumType
  else .ok ()

/-- The call `Message.create(doc)`: cast, validate, append with a fresh `_id`. -/
def Message.create (s : State) (d : MessageDoc) : Except DbError (Message × State) :=
  match castDoc d s.nextId with
  | .error e => .error e
  | .ok m =>
    match validateEnums m with
    | .error e => .error e
    | .ok _ => .ok (m, { s with messages := s.messages ++ [m], nextId := s.nextId + 1 })

/-! ## Filters and `findOneAndUpdate` -/

/-- The three filters the code builds for the message collection. An absent value is sent by
the driver as `null`, which matches a document lacking the field. -/
inductive MsgQuery where
  | byMsgId (v : Option String)
  | byMetaMsgId (v : Option String)
  | byContent (wa_id text : String) (timestamp : Option Int)
  deriving DecidableEq, Repr

/-- The value a filter object holds under the key `msg_id` (`query.msg_id`). -/
def MsgQuery.msg_id : MsgQuery → Option String
  | .byMsgId v => v
  | _ => none

/-- The value a filter object holds under the key `meta_msg_id` (`query.meta_msg_id`). -/
def MsgQuery.meta_msg_id : MsgQuery → Option String
  | .byMetaMsgId v => v
  | _ => none

/-- Casting of a filter: an Invalid Date under `timestamp` is refused. -/
def MsgQuery.cast : MsgQuery → Except DbError Unit
  | .byContent _ _ none => .error .castDate
  | _ => .ok ()

/-- Whether a stored message satisfies a filter. -/
def MsgQuery.sat : MsgQuery → Message → Bool
  | .byMsgId v, m => m.msg_id == v
  | .byMetaMsgId v, m => m.meta_msg_id == v
  | .byContent w t ts, m => m.wa_id == w && m.text == t && some m.timestamp == ts

/-- Replace the first element that satisfies `p` by its image under `f`. -/
def modifyFirst {α : Type} (p : α → Bool) (f : α → α) : List α → List α
  | [] => []
  | a :: rest => if p a then f a :: rest else a :: modifyFirst p f rest

/-- The call `Message.findOneAndUpdate(query, { status }, { new: true })`: the first match gets the
new status and is returned as updated; without a match nothing is written and `null` is returned. -/
def Message.findOneAndUpdateStatus (msgs : List Message) (q : MsgQuery) (status : String) :
    Option Message × List Message :=
  match msgs.find? q.sat with
  | none => (none, msgs)
  | some m => (some { m with status := status },
      modifyFirst q.sat (fun x => { x with status := status }) msgs)

/-- The call `Message.findOneAndUpdate(query, { $setOnInsert: doc }, { upsert: true, new: true })`:
an existing match is returned untouched; otherwise the cast document is inserted. Filter and
update are cast before the lookup, so an uncastable one fails either way. -/
def Message.findOneAndUpsert (s : State) (q : MsgQuery) (d : MessageDoc) :
    Except DbError (Message × State) :=
  match q.cast with
  | .error e => .error e
  | .ok _ =>
    match castDoc d s.nextId with
    | .error e => .error e
    | .ok fresh =>
      match s.messages.find? q.sat with
      | some m => .ok (m, s)
      | none => .ok (fresh, { s with messages := s.messages ++ [fresh], nextId := s.nextId + 1 })

/-- The call `Chat.findOneAndUpdate({ wa_id }, { $setOnInsert: { name }, $inc: { unreadCount: 1 } },
{ upsert: true })`. -/
def Chat.upsertInc (chats : List Chat) (wa_id : String) (name : Option String) : List Chat :=
  match chats.find? (fun c => c.wa_id == wa_id) with
  | some _ => modifyFirst (fun c => c.wa_id == wa_id)
      (fun c => { c with unreadCount := c.unreadCount + 1 }) chats
  | none => chats ++ [{ wa_id := wa_id, name := name, unreadCount := 1 }]

/-- The call `Chat.findOneAndUpdate({ wa_id }, { $setOnInsert: { name } }, { upsert: true })`. -/
def Chat.upsert (chats : List Chat) (wa_id : String) (name : Option String) : List Chat :=
  match chats.find? (fun c => c.wa_id == wa_id) with
  | some _ => chats
  | none => chats ++ [{ wa_id := wa_id, name := name, unreadCount := 0 }]

/-- The call `Chat.findOneAndUpdate({ wa_id }, { unreadCount: 0 })` (no upsert). -/
def Chat.resetUnread (chats : List Chat) (wa_id : String) : List Chat :=
  modifyFirst (fun c => c.wa_id == wa_id) (fun c => { c with unreadCount := 0 }) chats

/-- The unread counter of a conversation, when its record exists. -/
def unreadOf (chats : List Chat) (wa_id : String) : Option Nat :=
  (chats.find? (fun c => c.wa_id == wa_id)).map (fun c => c.unreadCount)

/-! ## Request and payload shapes -/

/-- The body of `POST /api/messages`. -/
structure SendRequest where
  wa_id : Option String
  name : Option String
  text : Option String
  type : Option String
  mediaUrl : Option String
  mediaMime : Option String
  caption : Option String
  direction : Option String
  replyTo : Option ReplyRef
  deriving DecidableEq, Repr

/-- The body of `POST /api/contacts`. -/
structure ContactRequest where
  wa_id : Option String
  displayName : Option String
  note : Option String
  deriving DecidableEq, Repr

/-- The body of `PUT /api/status`. -/
structure StatusRequest where
  id : Option String
  meta_msg_id : Option String
  status : Option String
  deriving DecidableEq, Repr

/-- One element of `value.messages`, with the nested reads flattened
(`text_body` is `m.text?.body`, `context_id` is `m.context?.id`, and so on). -/
structure MessageEntry where
  «from» : Option String
  id : Option String
  message_id : Option String
  author : Option String
  timestamp : Option String
  type : Option String
  text_body : Option String
  button_text : Option String
  order_title : Option String
  caption : Option String
  image_link : Option String
  image_caption : Option String
  context_id : Option String
  meta_msg_id : Option String
  deriving DecidableEq, Repr

/-- One element of `value.statuses`. -/
structure StatusEntry where
  id : Option String
  message_id : Option String
  meta_msg_id : Option String
  status : Option String
  status_type : Option String
  deriving DecidableEq, Repr

/-- The object `entry[0].changes[0].value` (or `{}`): `messages` and `statuses` are `none` when
they are not arrays; the two contact fields are `contacts[0].wa_id` and
`contacts[0].profile.name`. -/
structure Value where
  contacts0_wa_id : Option String
  contacts0_profile_name : Option String
  messages : Option (List MessageEntry)
  statuses : Option (List StatusEntry)
  deriving DecidableEq, Repr

/-- The preview object built by `GET /api/chats`. -/
structure Preview where
  type : String
  text : String
  mediaUrl : Option String
  caption : Option String
  timestamp : Int
  status : String
  direction : String
  deriving DecidableEq, Repr

/-- One element of the array answered by `GET /api/chats`. -/
structure Summary where
  wa_id : String
  name : String
  unreadCount : Nat
  lastMessage : Option Preview
  deriving DecidableEq, Repr

/-- The JSON body of a response. -/
inductive Body where
  | error (msg : String)
  | failure (e : DbError)
  | message (m : Message)
  | contact (c : Contact)
  | updated (ok : Bool) (updated : Option Message)
  | ok
  | chats (results : List Summary)
  deriving DecidableEq, Repr

/-- An HTTP response: status code and body. -/
structure Response where
  status : Nat
  body : Body
  deriving DecidableEq, Repr

/-! ## `index.js`: the request handlers -/

/-- The update `{ $set: { displayName, note } }` on a stored contact: a key whose value is absent
is dropped from `$set`, so the stored value stays. -/
def Contact.applySet (displayName note : Option String) (c : Contact) : Contact :=
  { c with
    displayName := match displayName with
      | some d => some d
      | none => c.displayName,
    note := match note with
      | some n => some n
      | none => c.note }

/-- The call `Contact.findOneAndUpdate({ wa_id }, { $set: { displayName, note } },
{ upsert: true, new: true })`: the contact as stored afterwards and the collection. -/
def Contact.upsertSet (contacts : List Contact) (wa_id : String)
    (displayName note : Option String) : Contact × List Contact :=
  match contacts.find? (fun c => c.wa_id == wa_id) with
  | some c => (Contact.applySet displayName note c,
      modifyFirst (fun c => c.wa_id == wa_id) (Contact.applySet displayName note) contacts)
  | none => (⟨wa_id, displayName, note, none⟩, contacts ++ [⟨wa_id, displayName, note, none⟩])

/-- The handler `app.post('/api/contacts')`. -/
def postContacts (req : ContactRequest) (s : State) : Response × State :=
  if !truthy req.wa_id then (⟨400, .error "wa_id is required"⟩, s)
  else
    let wa_id := req.wa_id.getD ""
    let r := Contact.upsertSet s.contacts wa_id req.displayName req.note
    (⟨201, .contact r.1⟩,
      { s with contacts := r.2,
               chats := Chat.upsert s.chats wa_id (some (firstTruthy [req.displayName, req.wa_id])) })

/-- The expression `replyTo || null`: a falsy value, here the empty string, becomes `null`. -/
def replyToOrNull : Option ReplyRef → Option ReplyRef
  | some (.uncastable raw) => if raw == "" then none else some (.uncastable raw)
  | some (.oid id) => some (.oid id)
  | none => none

/-- The handler `app.post('/api/messages')`. -/
def postMessages (now : Int) (req : SendRequest) (s : State) : Response × State :=
  let type := req.type.getD "text"
  let direction := req.direction.getD "out"
  if !truthy req.wa_id then (⟨400, .error "wa_id is required"⟩, s)
  else if type == "text" && !truthy req.text then
    (⟨400, .error "text required for text type"⟩, s)
  else if type == "image" && !truthy req.mediaUrl then
    (⟨400, .error "mediaUrl required for image type"⟩, s)
  else
    let wa_id := req.wa_id.getD ""
    match Message.create s
        { wa_id := wa_id, name := firstTruthy [req.name], direction := direction,
          timestamp := some now, status := "sent", type := type,
          text := firstTruthy [req.text], mediaUrl := req.mediaUrl,
          mediaMime := req.mediaMime, caption := req.caption,
          replyTo := replyToOrNull req.replyTo,
          msg_id := none, meta_msg_id := none } with
    | .error e => (⟨500, .failure e⟩, s)
    | .ok (msg, s1) =>
      let chats :=
        if direction == "in" then Chat.upsertInc s1.chats wa_id req.name
        else Chat.upsert s1.chats wa_id req.name
      (⟨201, .message msg⟩,
        { s1 with chats := chats, emitted := s1.emitted ++ [.messagesNew msg] })

/-- The handler `app.put('/api/status')`. -/
def putStatus (req : StatusRequest) (s : State) : Response × State :=
  if !truthy req.status || (!truthy req.id && !truthy req.meta_msg_id) then
    (⟨400, .error "status and id or meta_msg_id are required"⟩, s)
  else
    let query := if truthy req.id then MsgQuery.byMsgId req.id
      else MsgQuery.byMetaMsgId req.meta_msg_id
    let r := Message.findOneAndUpdateStatus s.messages query (req.status.getD "")
    (⟨200, .updated true r.1⟩,
      { s with messages := r.2,
               emitted := match r.1 with
                 | some u => s.emitted ++ [.messagesUpdate u]
                 | none => s.emitted })

/-- The handler `app.put('/api/chats/:wa_id/read')`. -/
def putChatRead (wa_id : String) (s : State) : Response × State :=
  (⟨200, .ok⟩, { s with chats := Chat.resetUnread s.chats wa_id })

/-- The query `Message.findOne(filter).sort({ timestamp: -1 })` on the matching documents: one of
greatest timestamp, the earliest stored among equals. -/
def latest : List Message → Option Message
  | [] => none
  | m :: rest =>
    match latest rest with
    | none => some m
    | some r => if m.timestamp < r.timestamp then some r else some m

/-- The element pushed to `results` for one chat. -/
def summarize (s : State) (chat : Chat) : Summary :=
  let contact := s.contacts.find? (fun c => c.wa_id == chat.wa_id)
  let lastMessage := latest (s.messages.filter (fun m => m.wa_id == chat.wa_id))
  { wa_id := chat.wa_id,
    name := firstTruthy [contact.bind (fun c => c.displayName), chat.name, some chat.wa_id],
    unreadCount := chat.unreadCount,
    lastMessage := lastMessage.map (fun m =>
      { type := m.type, text := m.text, mediaUrl := m.mediaUrl, caption := m.caption,
        timestamp := m.timestamp, status := m.status, direction := m.direction }) }

/-- The time value `new Date(x.lastMessage?.timestamp || 0)` the comparator reads. -/
def sortKey (x : Summary) : Int :=
  match x.lastMessage with
  | some p => p.timestamp
  | none => 0

/-- The comparator of `results.sort` puts `a` no later than `b` when `key b - key a ≤ 0`. -/
def summaryOrder (a b : Summary) : Prop := sortKey b ≤ sortKey a

instance : DecidableRel summaryOrder := fun a b => inferInstanceAs (Decidable (sortKey b ≤ sortKey a))

/-- The handler `app.get('/api/chats')`; `Array.prototype.sort` is a stable sort. -/
def getChats (s : State) : List Summary :=
  List.insertionSort summaryOrder (s.chats.map (summarize s))

/-- The body of the loop over `value.messages` in `app.post('/webhook')`. -/
def webhookMessage (value : Value) (now : Int) (m : MessageEntry) (s : State) :
    Except DbError State :=
  let wa_id := firstTruthy [m.«from», value.contacts0_wa_id]
  let name := firstTruthy [value.contacts0_profile_name]
  let timestamp := entryTimestamp m.timestamp now
  let msg_id := firstTruthy [m.id]
  let meta_msg_id := firstTruthy [m.context_id]
  let doc : MessageDoc :=
    if m.type == some "image" then
      { wa_id := wa_id, name := name, direction := "in", timestamp := timestamp,
        status := "delivered", type := "image", text := "",
        mediaUrl := some (firstTruthy [m.image_link]), mediaMime := some "image/jpeg",
        caption := some (firstTruthy [m.image_caption]), replyTo := none,
        msg_id := some msg_id, meta_msg_id := some meta_msg_id }
    else
      { wa_id := wa_id, name := name, direction := "in", timestamp := timestamp,
        status := "delivered", type := "text", text := firstTruthy [m.text_body],
        mediaUrl := none, mediaMime := none, caption := none, replyTo := none,
        msg_id := some msg_id, meta_msg_id := some meta_msg_id }
  match Message.create s doc with
  | .error e => .error e
  | .ok (saved, s1) =>
    .ok { s1 with chats := Chat.upsertInc s1.chats wa_id (some name),
                  emitted := s1.emitted ++ [.messagesNew saved] }

/-- The loop over `value.messages`: entries in array order, the `i`-th reading the clock at
`clock i`; the first failure leaves the loop with what was written so far. -/
def webhookMessages (value : Value) (clock : Nat → Int) :
    Nat → List MessageEntry → State → State × Option DbError
  | _, [], s => (s, none)
  | i, m :: rest, s =>
    match webhookMessage value (clock i) m s with
    | .error e => (s, some e)
    | .ok s1 => webhookMessages value clock (i + 1) rest s1

/-- The body of the loop over `value.statuses` in `app.post('/webhook')`. -/
def webhookStatus (st : StatusEntry) (s : State) : State :=
  let status := firstTruthy [st.status, some "unknown"]
  let query := if truthy st.id then MsgQuery.byMsgId st.id
    else MsgQuery.byMetaMsgId st.meta_msg_id
  let r := Message.findOneAndUpdateStatus s.messages query status
  { s with messages := r.2,
           emitted := match r.1 with
             | some u => s.emitted ++ [.messagesUpdate u]
             | none => s.emitted }

/-- The handler `app.post('/webhook')`. -/
def postWebhook (clock : Nat → Int) (value : Value) (s : State) : Response × State :=
  match webhookMessages value clock 0 (value.messages.getD []) s with
  | (s1, some e) => (⟨500, .failure e⟩, s1)
  | (s1, none) => (⟨200, .ok⟩, (value.statuses.getD []).foldl (fun acc st => webhookStatus st acc) s1)

/-! ## `scripts/processPayloads.js`: the batch import -/

/-- The object `doc` built for one entry; `type` is the schema default applied on insert. -/
def importDoc (value : Value) (now : Int) (m : MessageEntry) : MessageDoc :=
  { wa_id := firstTruthy [m.«from», value.contacts0_wa_id, m.author],
    name := firstTruthy [value.contacts0_profile_name],
    direction := "in",
    timestamp := entryTimestamp m.timestamp now,
    text := firstTruthy [m.text_body, m.button_text, m.order_title, m.caption],
    status := "delivered",
    type := "text",
    mediaUrl := none, mediaMime := none, caption := none, replyTo := none,
    msg_id := some (firstTruthy [m.id, m.message_id]),
    meta_msg_id := some (firstTruthy [m.context_id, m.meta_msg_id]) }

/-- The filter `msg_id ? { msg_id } : { wa_id, text, timestamp }`. -/
def importQuery (doc : MessageDoc) : MsgQuery :=
  if truthy doc.msg_id then .byMsgId doc.msg_id
  else .byContent doc.wa_id doc.text doc.timestamp

/-- The message-create step: the upsert with `$setOnInsert`, giving `saved`. -/
def importCreate (value : Value) (now : Int) (m : MessageEntry) (s : State) :
    Except DbError (Message × State) :=
  let doc := importDoc value now m
  Message.findOneAndUpsert s (importQuery doc) doc

/-- The body of the loop over `value.messages` in `main`: the create step, then the increment
of the unread counter. -/
def importMessage (value : Value) (now : Int) (m : MessageEntry) (s : State) :
    Except DbError State :=
  let doc := importDoc value now m
  match importCreate value now m s with
  | .error e => .error e
  | .ok (_, s1) => .ok { s1 with chats := Chat.upsertInc s1.chats doc.wa_id (some doc.name) }

/-- The loop over `value.messages` in `main`. -/
def importMessages (value : Value) (clock : Nat → Int) :
    Nat → List MessageEntry → State → State × Option DbError
  | _, [], s => (s, none)
  | i, m :: rest, s =>
    match importMessage value (clock i) m s with
    | .error e => (s, some e)
    | .ok s1 => importMessages value clock (i + 1) rest s1

/-- The body of the loop over `value.statuses` in `main`. -/
def importStatus (st : StatusEntry) (s : State) : State :=
  let id := jsOr st.id st.message_id
  let status := firstTruthy [st.status, st.status_type, some "unknown"]
  let query := if truthy id then MsgQuery.byMsgId id else MsgQuery.byMetaMsgId st.meta_msg_id
  if !truthy query.msg_id && !truthy query.meta_msg_id then s
  else { s with messages := (Message.findOneAndUpdateStatus s.messages query status).2 }

/-- One iteration of the loop over files, on the parsed `value` of the file. -/
def importFile (clock : Nat → Int) (value : Value) (s : State) : State × Option DbError :=
  match importMessages value clock 0 (value.messages.getD []) s with
  | (s1, some e) => (s1, some e)
  | (s1, none) => ((value.statuses.getD []).foldl (fun acc st => importStatus st acc) s1, none)

/-- The function `main` over the files of the payload directory: `none` is a file that is not
valid JSON (skipped); `clock k` is the clock during the `k`-th file. An error ends the run. -/
def main (clock : Nat → Nat → Int) : Nat → List (Option Value) → State → State × Option DbError
  | _, [], s => (s, none)
  | k, none :: rest, s => main clock (k + 1) rest s
  | k, some value :: rest, s =>
    match importFile (clock k) value s with
    | (s1, some e) => (s1, some e)
    | (s1, none) => main clock (k + 1) rest s1

/-! ## Concrete stores and payloads -/

/-- The store with no document at all. -/
def emptyState : State := ⟨[], [], [], [], 0⟩

/-- A message entry with every field absent. -/
def blankEntry : MessageEntry :=
  ⟨none, none, none, none, none, none, none, none, none, none, none, none, none, none⟩

/-- The entry `{from:"111", id:"m1", timestamp:"1000", text:{body:"hi"}}`. -/
def hiEntry : MessageEntry :=
  { blankEntry with «from» := some "111", id := some "m1", timestamp := some "1000",
                    text_body := some "hi" }

/-- A second entry with the provider id of `hiEntry` and other content. -/
def againEntry : MessageEntry :=
  { blankEntry with «from» := some "222", id := some "m1", timestamp := some "2000",
                    text_body := some "again" }

/-- An entry whose timestamp has no digits. -/
def undatedEntry : MessageEntry :=
  { hiEntry with timestamp := some "soon" }

/-- The Message stored for `hiEntry` when it is the first document written. -/
def hiStored : Message :=
  { _id := 0, wa_id := "111", name := "", direction := "in", timestamp := 1000000,
    status := "delivered", type := "text", text := "hi", mediaUrl := none, mediaMime := none,
    caption := none, replyTo := none, msg_id := some "m1", meta_msg_id := some "" }

/-- The store after `hiEntry` alone was posted to the webhook on the empty store. -/
def hiState : State :=
  ⟨[hiStored], [⟨"111", some "", 1⟩], [], [.messagesNew hiStored], 1⟩

/-- The status entry `{id:"", meta_msg_id:"", status:"read"}`: both keys empty. -/
def keylessStatus : StatusEntry := ⟨some "", none, some "", some "read", none⟩

/-- The payload value `{statuses:[keylessStatus]}`. -/
def keylessValue : Value := ⟨none, none, none, some [keylessStatus]⟩

/-- A send request with every field absent. -/
def blankSend : SendRequest := ⟨none, none, none, none, none, none, none, none, none⟩

/-- An inbound text "yo" for conversation "555". -/
def inboundSend : SendRequest :=
  { blankSend with wa_id := some "555", text := some "yo", direction := some "in" }

/-- An outbound text "ok" for conversation "555" (direction left to its default). -/
def outboundSend : SendRequest :=
  { blankSend with wa_id := some "555", text := some "ok" }

/-- The payload value `{messages:[hiEntry]}`. -/
def hiValue : Value := ⟨none, none, some [hiEntry], none⟩

/-- An earlier entry that carries the provider id "m1". -/
def oldEntry : MessageEntry :=
  { blankEntry with «from» := some "999", id := some "m1", timestamp := some "5",
                    text_body := some "old" }

/-- The Message stored for `oldEntry` when it is the first document written. -/
def oldMessage : Message :=
  { _id := 0, wa_id := "999", name := "", direction := "in", timestamp := 5000,
    status := "delivered", type := "text", text := "old", mediaUrl := none, mediaMime := none,
    caption := none, replyTo := none, msg_id := some "m1", meta_msg_id := some "" }

/-- The store after the batch import ran over the one file `{messages:[oldEntry]}`. -/
def oldState : State := ⟨[oldMessage], [⟨"999", some "", 1⟩], [], [], 1⟩

/-- The entry of `hiEntry` dated one second before the epoch. -/
def earlyEntry : MessageEntry :=
  { hiEntry with timestamp := some "-1" }

/-- The Message stored for `earlyEntry` when it is the first document written. -/
def earlyStored : Message := { hiStored with timestamp := -1000 }

/-- The store after contact "000" was added and `earlyEntry` was then posted to the webhook:
conversation "000" has no Message and the only Message of conversation "111" is dated one
second before the epoch. -/
def quietState : State :=
  ⟨[earlyStored], [⟨"000", some "000", 0⟩, ⟨"111", some "", 1⟩], [⟨"000", none, none, none⟩],
    [.messagesNew earlyStored], 1⟩

/-- The store of `quietState` with the Message dated after the epoch instead. -/
def busyState : State := { quietState with messages := [hiStored] }

/-- The entry of `hiEntry` with a timestamp one second past the last second whose millisecond
value is a valid `Date`. -/
def farEntry : MessageEntry :=
  { hiEntry with timestamp := some "8640000000001" }

/-- The store after the batch import ran once over the one file `{messages:[hiEntry]}`. -/
def importedState : State := ⟨[hiStored], [⟨"111", some "", 1⟩], [], [], 1⟩

/-- The entry of `hiEntry` without a provider id: same sender, text and timestamp. -/
def noIdEntry : MessageEntry :=
  { hiEntry with id := none }

/-! ## Statements used by the theorems -/

/-- The first of two batch creates with provider id `i` inserts the record derived from its entry
and the second returns that record with nothing written, one record holding `i` afterwards. -/
def CreateTwiceKeepsFirst (s : State) (v1 v2 : Value) (now1 now2 : Int)
    (e1 e2 : MessageEntry) (i : String) : Prop :=
  ∃ m s1, importCreate v1 now1 e1 s = .ok (m, s1) ∧
    importCreate v2 now2 e2 s1 = .ok (m, s1) ∧
    s1.messages.filter (fun x => x.msg_id == some i) = [m] ∧
    castDoc (importDoc v1 now1 e1) m._id = .ok m

/-- In a list of summaries, every one with a null preview comes after every one with a
preview. -/
def NoMessageLast (l : List Summary) : Prop :=
  ∀ (i j : Nat) (hi : i < l.length) (hj : j < l.length),
    l[i].lastMessage = none → l[j].lastMessage ≠ none → j < i

/-- The dedup key of a record in the words of the spec: the primary key when it is non-empty,
otherwise the composite of conversation id, text and timestamp. -/
inductive SpecDedupKey where
  | primary (key : String)
  | composite (conversationId text : String) (timestamp : Int)
  deriving DecidableEq, Repr

/-- The dedup key the spec assigns to a record. -/
def specDedupKey (m : Message) : SpecDedupKey :=
  if truthy m.msg_id then .primary (m.msg_id.getD "")
  else .composite m.wa_id m.text m.timestamp

/-- The batch create, as the spec words it, on the record `fresh` cast from an entry: an existing
record is returned unchanged exactly when a stored record has the dedup key of `fresh`, and
otherwise `fresh` is inserted as the one new record. -/
def CreateDedupsBySpecKey (s : State) (v : Value) (now : Int) (e : MessageEntry) : Prop :=
  ∃ fresh, castDoc (importDoc v now e) s.nextId = .ok fresh ∧
    ((∃ x ∈ s.messages, importCreate v now e s = .ok (x, s)) ↔
      ∃ x ∈ s.messages, specDedupKey x = specDedupKey fresh) ∧
    ((¬ ∃ x ∈ s.messages, specDedupKey x = specDedupKey fresh) →
      importCreate v now e s
        = .ok (fresh, { s with messages := s.messages ++ [fresh], nextId := s.nextId + 1 }))

/-- The batch create on an entry, as the code performs it, with `fresh` the record cast from the
entry and "the filter" the one the create builds (`importQuery`):
(1) the filter matches a stored record `x` exactly when `x` has the primary key of `fresh` if
that key is non-empty, and otherwise when `x` has the conversation id, text and timestamp of
`fresh`, whatever the primary key of `x`;
(2) if a stored record matches, the create returns the first stored record that matches and
writes nothing;
(3) if none matches, it inserts `fresh` as the one new record;
(4) a record the create returns with the store unchanged is a stored record that matches;
(5) an existing record is returned exactly when a stored record matches;
(6) if a stored record has the dedup key of `fresh`, a stored record that matches is returned;
(7) when the primary key of `fresh` is empty and a stored record shares its conversation id,
text and timestamp, a stored record with these three fields is returned and nothing is
inserted. -/
def CreateDedupsByFilter (s : State) (v : Value) (now : Int) (e : MessageEntry) : Prop :=
  ∃ fresh, castDoc (importDoc v now e) s.nextId = .ok fresh ∧
    (∀ x : Message, (importQuery (importDoc v now e)).sat x = true ↔
      if firstTruthy [e.id, e.message_id] = "" then
        x.wa_id = fresh.wa_id ∧ x.text = fresh.text ∧ x.timestamp = fresh.timestamp
      else x.msg_id = fresh.msg_id) ∧
    ((∃ x ∈ s.messages, (importQuery (importDoc v now e)).sat x = true) →
      ∃ pre x post, s.messages = pre ++ x :: post ∧
        (importQuery (importDoc v now e)).sat x = true ∧
        (∀ y ∈ pre, (importQuery (importDoc v now e)).sat y = false) ∧
        importCreate v now e s = .ok (x, s)) ∧
    ((∀ x ∈ s.messages, (importQuery (importDoc v now e)).sat x = false) →
      importCreate v now e s
        = .ok (fresh, { s with messages := s.messages ++ [fresh], nextId := s.nextId + 1 })) ∧
    (∀ x : Message, importCreate v now e s = .ok (x, s) →
      x ∈ s.messages ∧ (importQuery (importDoc v now e)).sat x = true) ∧
    ((∃ x ∈ s.messages, importCreate v now e s = .ok (x, s)) ↔
      ∃ x ∈ s.messages, (importQuery (importDoc v now e)).sat x = true) ∧
    ((∃ x ∈ s.messages, specDedupKey x = specDedupKey fresh) →
      ∃ x ∈ s.messages, (importQuery (importDoc v now e)).sat x = true ∧
        importCreate v now e s = .ok (x, s)) ∧
    (firstTruthy [e.id, e.message_id] = "" →
      (∃ x ∈ s.messages,
        x.wa_id = fresh.wa_id ∧ x.text = fresh.text ∧ x.timestamp = fresh.timestamp) →
      ∃ y ∈ s.messages,
        y.wa_id = fresh.wa_id ∧ y.text = fresh.text ∧ y.timestamp = fresh.timestamp ∧
        importCreate v now e s = .ok (y, s))

/-! ## Order instances for the sort -/

instance : IsTotal Summary summaryOrder := ⟨fun a b => le_total (sortKey b) (sortKey a)⟩

instance : IsTrans Summary summaryOrder := ⟨fun _ _ _ hab hbc => le_trans hbc hab⟩

/-! # Theorems -/

/-! ## Lemmas on the list primitives -/

theorem modifyFirst_of_forall_false {α : Type} (p : α → Bool) (f : α → α) (l : List α)
    (h : ∀ x ∈ l, p x = false) : modifyFirst p f l = l := by
  induction l with
  | nil => rfl
  | cons a rest ih =>
    have ha : p a = false := h a (List.mem_cons_self a rest)
    have hr : ∀ x ∈ rest, p x = false := fun x hx => h x (List.mem_cons_of_mem a hx)
    simp [modifyFirst, ha, ih hr]

theorem find?_of_forall_false {α : Type} (p : α → Bool) (l : List α)
    (h : ∀ x ∈ l, p x = false) : l.find? p = none := by
  induction l with
  | nil => rfl
  | cons a rest ih =>
    have ha : p a = false := h a (List.mem_cons_self a rest)
    have hr : ∀ x ∈ rest, p x = false := fun x hx => h x (List.mem_cons_of_mem a hx)
    simp [List.find?, ha, ih hr]

theorem find?_split {α : Type} (p : α → Bool) (l : List α) (m : α)
    (h : l.find? p = some m) :
    ∃ pre post, l = pre ++ m :: post ∧ p m = true ∧ ∀ x ∈ pre, p x = false := by
  induction l with
  | nil => simp at h
  | cons a rest ih =>
    cases hpa : p a with
    | true =>
      have hm : a = m := by simpa [List.find?, hpa] using h
      subst hm
      exact ⟨[], rest, rfl, hpa, by simp⟩
    | false =>
      have hr : rest.find? p = some m := by simpa [List.find?, hpa] using h
      obtain ⟨pre, post, hl, hm, hpre⟩ := ih hr
      refine ⟨a :: pre, post, by simp [hl], hm, ?_⟩
      intro x hx
      rcases List.mem_cons.mp hx with rfl | hx
      · exact hpa
      · exact hpre x hx

theorem find?_append_cons {α : Type} (p : α → Bool) (pre post : List α) (m : α)
    (hpre : ∀ x ∈ pre, p x = false) (hm : p m = true) :
    (pre ++ m :: post).find? p = some m := by
  induction pre with
  | nil => simp [List.find?, hm]
  | cons a rest ih =>
    have ha : p a = false := hpre a (List.mem_cons_self a rest)
    have hr : ∀ x ∈ rest, p x = false := fun x hx => hpre x (List.mem_cons_of_mem a hx)
    simp [List.find?, ha, ih hr]

theorem modifyFirst_append_cons {α : Type} (p : α → Bool) (f : α → α) (pre post : List α)
    (m : α) (hpre : ∀ x ∈ pre, p x = false) (hm : p m = true) :
    modifyFirst p f (pre ++ m :: post) = pre ++ f m :: post := by
  induction pre with
  | nil => simp [modifyFirst, hm]
  | cons a rest ih =>
    have ha : p a = false := hpre a (List.mem_cons_self a rest)
    have hr : ∀ x ∈ rest, p x = false := fun x hx => hpre x (List.mem_cons_of_mem a hx)
    simp [modifyFirst, ha, ih hr]

theorem filter_of_forall_false {α : Type} (p : α → Bool) (l : List α)
    (h : ∀ x ∈ l, p x = false) : l.filter p = [] := by
  induction l with
  | nil => rfl
  | cons a rest ih =>
    have ha : p a = false := h a (List.mem_cons_self a rest)
    have hr : ∀ x ∈ rest, p x = false := fun x hx => h x (List.mem_cons_of_mem a hx)
    simp [List.filter, ha, ih hr]

theorem find?_modifyFirst_same {α : Type} (p : α → Bool) (f : α → α) (l : List α)
    (hf : ∀ x, p (f x) = p x) : (modifyFirst p f l).find? p = (l.find? p).map f := by
  induction l with
  | nil => rfl
  | cons a rest ih =>
    cases ha : p a with
    | true => simp [modifyFirst, List.find?, ha, hf]
    | false => simp [modifyFirst, List.find?, ha, ih]

theorem find?_modifyFirst_other {α : Type} (p q : α → Bool) (f : α → α) (l : List α)
    (hq : ∀ x, q (f x) = q x) (hpq : ∀ x, p x = true → q x = false) :
    (modifyFirst p f l).find? q = l.find? q := by
  induction l with
  | nil => rfl
  | cons a rest ih =>
    cases ha : p a with
    | true => simp [modifyFirst, List.find?, ha, hq, hpq a ha]
    | false => simp [modifyFirst, List.find?, ha, ih]

theorem truthy_some_of_ne {i : String} (hi : i ≠ "") : truthy (some i) = true := by
  simp [truthy, hi]

theorem firstTruthy_singleton (b : String) : firstTruthy [some b] = b := by
  by_cases h : b = ""
  · subst h; rfl
  · simp [firstTruthy, truthy, h]

/-! ## Lemmas on `parseInt` and the decimal rendering of a number -/

theorem digitChar_isDigit (k : Nat) (hk : k < 10) :
    (Nat.digitChar k).isDigit = true ∧ (Nat.digitChar k).toNat - 48 = k := by
  interval_cases k <;> decide

theorem digitsValue_append_singleton (ds : List Char) (c : Char) :
    digitsValue (ds ++ [c]) = 10 * digitsValue ds + (c.toNat - 48) := by
  simp [digitsValue, List.foldl_append]

theorem toDigitsCore_spec (fuel n : Nat) (ds : List Char) (h : n < fuel) :
    ∃ pre, Nat.toDigitsCore 10 fuel n ds = pre ++ ds ∧ pre ≠ [] ∧
      (∀ c ∈ pre, c.isDigit = true) ∧ digitsValue pre = n := by
  induction fuel generalizing n ds with
  | zero => omega
  | succ fuel ih =>
    have hd := digitChar_isDigit (n % 10) (Nat.mod_lt _ (by decide))
    by_cases h0 : n / 10 = 0
    · refine ⟨[Nat.digitChar (n % 10)], by simp [Nat.toDigitsCore, h0], by simp, ?_, ?_⟩
      · intro c hc
        rw [List.mem_singleton.mp hc]
        exact hd.1
      · have : digitsValue [Nat.digitChar (n % 10)] = (Nat.digitChar (n % 10)).toNat - 48 := by
          simp [digitsValue]
        rw [this, hd.2]
        omega
    · have hlt : n / 10 < fuel := by omega
      obtain ⟨pre, hpre, -, hdig, hval⟩ := ih (n / 10) (Nat.digitChar (n % 10) :: ds) hlt
      refine ⟨pre ++ [Nat.digitChar (n % 10)], by simp [Nat.toDigitsCore, h0, hpre], by simp,
        ?_, ?_⟩
      · intro c hc
        rcases List.mem_append.mp hc with hc | hc
        · exact hdig c hc
        · rw [List.mem_singleton.mp hc]
          exact hd.1
      · rw [digitsValue_append_singleton, hval, hd.2]
        omega

theorem isDigit_not_space (c : Char) (h : c.isDigit = true) :
    isStrWhiteSpace c = false ∧ c ≠ '-' ∧ c ≠ '+' := by
  have h1 : 48 ≤ c.toNat ∧ c.toNat ≤ 57 := by
    simp only [Char.isDigit, Bool.and_eq_true, decide_eq_true_eq] at h
    exact ⟨h.1, h.2⟩
  refine ⟨?_, ?_, ?_⟩
  · simp [isStrWhiteSpace]
    omega
  · rintro rfl
    revert h1
    decide
  · rintro rfl
    revert h1
    decide

theorem parseInt10_digits (ds : List Char) (hne : ds ≠ [])
    (hd : ∀ c ∈ ds, c.isDigit = true) :
    parseInt10 (String.mk ds) = some (digitsValue ds : Int) := by
  cases ds with
  | nil => exact absurd rfl hne
  | cons c rest =>
    have hc := isDigit_not_space c (hd c (List.mem_cons_self _ _))
    have hdrop : (c :: rest).dropWhile isStrWhiteSpace = c :: rest := by
      simp [List.dropWhile, hc.1]
    have hsign : splitSign (c :: rest) = (false, c :: rest) := by
      unfold splitSign
      split
      · rename_i h; cases h; exact absurd rfl hc.2.1
      · rename_i h; cases h; exact absurd rfl hc.2.2
      · rfl
    have htake : (c :: rest).takeWhile Char.isDigit = c :: rest := by
      rw [List.takeWhile_eq_self_iff]
      exact hd
    simp [parseInt10, hdrop, hsign, htake]

theorem parseInt10_toString (t : Nat) : parseInt10 (toString t) = some (t : Int) := by
  obtain ⟨pre, hpre, hne, hdig, hval⟩ := toDigitsCore_spec (t + 1) t [] (Nat.lt_succ_self t)
  have hs : toString t = String.mk pre := by
    show Nat.repr t = _
    simp [Nat.repr, Nat.toDigits, hpre, List.asString]
  rw [hs, parseInt10_digits pre hne hdig, hval]

theorem toString_nat_ne_empty (t : Nat) : toString t ≠ "" := by
  obtain ⟨pre, hpre, hne, -, -⟩ := toDigitsCore_spec (t + 1) t [] (Nat.lt_succ_self t)
  have hs : toString t = String.mk pre := by
    show Nat.repr t = _
    simp [Nat.repr, Nat.toDigits, hpre, List.asString]
  rw [hs]
  intro h
  exact hne (congrArg String.data h)

theorem entryTimestamp_toString (t : Nat) (now : Int) (h : t * 1000 ≤ maxTimeValue) :
    entryTimestamp (some (toString t)) now = some ((t : Int) * 1000) := by
  have hne := truthy_some_of_ne (toString_nat_ne_empty t)
  have hr : ((t : Int) * 1000).natAbs ≤ maxTimeValue := by
    have : ((t : Int) * 1000).natAbs = t * 1000 := by
      rw [Int.natAbs_mul]; rfl
    omega
  simp [entryTimestamp, hne, parseInt10_toString, newDate, hr]

/-! ## C1: two batch creates with one provider message id -/

theorem castDoc_importDoc_ok (v : Value) (now : Int) (e : MessageEntry) (id : Nat)
    (ht : entryTimestamp e.timestamp now ≠ none) :
    ∃ m, castDoc (importDoc v now e) id = .ok m ∧ m._id = id ∧
      m.msg_id = some (firstTruthy [e.id, e.message_id]) := by
  obtain ⟨t, ht⟩ := Option.ne_none_iff_exists'.mp ht
  exact ⟨_, by simp [castDoc, importDoc, ht]; rfl, rfl, rfl⟩

/-- C1 (amended): on a store that holds no Message with the non-empty provider id `i`, for two
entries that carry `i` and whose timestamps are absent or denote valid dates, the first batch
create inserts the record derived from the first entry, the second returns that same record and
writes nothing, and exactly one stored Message has msg_id `i`. -/
theorem c1_first_write_wins_on_fresh_key (s : State) (v1 v2 : Value) (now1 now2 : Int)
    (e1 e2 : MessageEntry) (i : String) (hi : i ≠ "")
    (h1 : firstTruthy [e1.id, e1.message_id] = i)
    (h2 : firstTruthy [e2.id, e2.message_id] = i)
    (hs : ∀ x ∈ s.messages, x.msg_id ≠ some i)
    (ht1 : entryTimestamp e1.timestamp now1 ≠ none)
    (ht2 : entryTimestamp e2.timestamp now2 ≠ none) :
    CreateTwiceKeepsFirst s v1 v2 now1 now2 e1 e2 i := by
  obtain ⟨m, hm, hid, hmi⟩ := castDoc_importDoc_ok v1 now1 e1 s.nextId ht1
  obtain ⟨m2, hm2, -, -⟩ := castDoc_importDoc_ok v2 now2 e2 (s.nextId + 1) ht2
  rw [h1] at hmi
  have hti := truthy_some_of_ne hi
  have hq1 : importQuery (importDoc v1 now1 e1) = .byMsgId (some i) := by
    simp [importQuery, importDoc, h1, hti]
  have hq2 : importQuery (importDoc v2 now2 e2) = .byMsgId (some i) := by
    simp [importQuery, importDoc, h2, hti]
  have hno : ∀ x ∈ s.messages, (MsgQuery.byMsgId (some i)).sat x = false := by
    intro x hx
    simpa [MsgQuery.sat] using hs x hx
  have hsat : (MsgQuery.byMsgId (some i)).sat m = true := by
    simp [MsgQuery.sat, hmi]
  refine ⟨m, { s with messages := s.messages ++ [m], nextId := s.nextId + 1 }, ?_, ?_, ?_, ?_⟩
  · simp [importCreate, hq1, Message.findOneAndUpsert, MsgQuery.cast, hm,
      find?_of_forall_false _ _ hno]
  · have hf := find?_append_cons _ s.messages [] m hno hsat
    simp [importCreate, hq2, Message.findOneAndUpsert, MsgQuery.cast, hm2, hf]
  · have hf : s.messages.filter (fun x => x.msg_id == some i) = [] :=
      filter_of_forall_false _ _ (by intro x hx; simpa using hs x hx)
    simp [List.filter_append, hf, List.filter, hmi]
  · rw [hid]; exact hm

/-- Witness of C1 (amended): the two entries with id "m1" on the empty store. -/
theorem c1_first_write_wins_on_fresh_key_witness :
    CreateTwiceKeepsFirst emptyState hiValue hiValue 7 8 hiEntry againEntry "m1" :=
  c1_first_write_wins_on_fresh_key emptyState hiValue hiValue 7 8 hiEntry againEntry "m1"
    (by decide) (by decide) (by decide) (by decide) (by decide) (by decide)

/-- C1 as stated fails: on a store that already holds a Message with msg_id "m1" (left by an
earlier import) the record kept is the stored one, not the one derived from the first entry;
and an entry whose timestamp does not parse makes its create fail, be it the first or the second
of the two. -/
theorem c1_counterexample :
    main (fun _ _ => 6) 0 [some ⟨none, none, some [oldEntry], none⟩] emptyState
      = (oldState, none) ∧
    ¬ CreateTwiceKeepsFirst oldState hiValue hiValue 7 8 hiEntry againEntry "m1" ∧
    ¬ CreateTwiceKeepsFirst emptyState hiValue hiValue 7 8 undatedEntry againEntry "m1" ∧
    ¬ CreateTwiceKeepsFirst emptyState hiValue hiValue 7 8 hiEntry undatedEntry "m1" := by
  refine ⟨by decide, ?_, ?_, ?_⟩
  · rintro ⟨m, s1, h1, -, -, h4⟩
    have hc : importCreate hiValue 7 hiEntry oldState = .ok (oldMessage, oldState) := by decide
    rw [hc] at h1
    injection h1 with h1
    injection h1 with hm hs
    subst hm
    revert h4
    decide
  · rintro ⟨m, s1, h1, -⟩
    have hc : importCreate hiValue 7 undatedEntry emptyState = .error .castDate := by decide
    rw [hc] at h1
    cases h1
  · rintro ⟨m, s1, h1, h2, -⟩
    have hc : importCreate hiValue 7 hiEntry emptyState
        = .ok (hiStored, { emptyState with messages := [hiStored], nextId := 1 }) := by
      decide
    rw [hc] at h1
    injection h1 with h1
    injection h1 with hm hs
    subst hm hs
    have hc2 : importCreate hiValue 8 undatedEntry
        { emptyState with messages := [hiStored], nextId := 1 } = .error .castDate := by
      decide
    rw [hc2] at h2
    cases h2

/-! ## C2: the webhook on a replayed payload -/

/-- C2 (code evaluated at the failing input): the payload with the one entry "m1", posted to the
webhook on the empty store, stores one Message; posted a second time it stores a second Message
with the same provider id "m1". -/
theorem c2_webhook_replay_stores_duplicate :
    (postWebhook (fun _ => 7) hiValue emptyState).2.messages = [hiStored] ∧
    (postWebhook (fun _ => 7) hiValue (postWebhook (fun _ => 7) hiValue emptyState).2).2.messages
      = [hiStored, { hiStored with _id := 1 }] := by
  decide

/-! ## C3: a status update that finds its message -/

/-- C3: `PUT /api/status` with a non-empty `id` that some stored Message carries as msg_id and a
non-empty status `st` rewrites the status of the first such Message and nothing else in the
store: the messages before and after it, its other fields, the chats and the contacts stay as
they were; the updated record is returned and broadcast. -/
theorem c3_status_update_changes_only_status (s : State) (req : StatusRequest)
    (i st : String) (hid : req.id = some i) (hi : i ≠ "") (hst : req.status = some st)
    (hs : st ≠ "") (hex : ∃ x ∈ s.messages, x.msg_id = some i) :
    ∃ pre m post, s.messages = pre ++ m :: post ∧ m.msg_id = some i ∧
      (∀ x ∈ pre, x.msg_id ≠ some i) ∧
      putStatus req s =
        (⟨200, .updated true (some { m with status := st })⟩,
          { s with messages := pre ++ { m with status := st } :: post,
                   emitted := s.emitted ++ [.messagesUpdate { m with status := st }] }) := by
  obtain ⟨x, hx, hxi⟩ := hex
  cases hf : s.messages.find? (MsgQuery.byMsgId (some i)).sat with
  | none =>
    have := List.find?_eq_none.mp hf x hx
    simp [MsgQuery.sat, hxi] at this
  | some m =>
    obtain ⟨pre, post, hl, hm, hpre⟩ := find?_split _ _ _ hf
    have hmi : m.msg_id = some i := by simpa [MsgQuery.sat] using hm
    refine ⟨pre, m, post, hl, hmi, ?_, ?_⟩
    · intro y hy
      simpa [MsgQuery.sat] using hpre y hy
    · have hmod := modifyFirst_append_cons (MsgQuery.byMsgId (some i)).sat
        (fun x => { x with status := st }) pre post m hpre hm
      rw [← hl] at hmod
      simp [putStatus, hid, hst, truthy, hi, hs, Message.findOneAndUpdateStatus, hf, hmod]

/-- Witness of C3: the status of the stored "m1" is set to "read". -/
theorem c3_status_update_changes_only_status_witness :
    ∃ pre m post, hiState.messages = pre ++ m :: post ∧ m.msg_id = some "m1" ∧
      (∀ x ∈ pre, x.msg_id ≠ some "m1") ∧
      putStatus ⟨some "m1", none, some "read"⟩ hiState =
        (⟨200, .updated true (some { m with status := "read" })⟩,
          { hiState with messages := pre ++ { m with status := "read" } :: post,
                         emitted := hiState.emitted ++
                           [.messagesUpdate { m with status := "read" }] }) :=
  c3_status_update_changes_only_status hiState ⟨some "m1", none, some "read"⟩ "m1" "read"
    rfl (by decide) rfl (by decide) ⟨hiStored, by decide, rfl⟩

/-! ## C4: status updates that supply no key -/

theorem putStatus_rejects_without_key_or_status (req : StatusRequest) (s : State)
    (h : truthy req.status = false ∨
      (truthy req.id = false ∧ truthy req.meta_msg_id = false)) :
    putStatus req s = (⟨400, .error "status and id or meta_msg_id are required"⟩, s) := by
  rcases h with h | ⟨h1, h2⟩
  · simp [putStatus, h]
  · simp [putStatus, h1, h2]

theorem importStatus_skips_without_key (st : StatusEntry) (s : State)
    (h1 : truthy st.id = false) (h2 : truthy st.message_id = false)
    (h3 : truthy st.meta_msg_id = false) : importStatus st s = s := by
  have hj : truthy (jsOr st.id st.message_id) = false := by simp [jsOr, h1, h2]
  have hn : truthy none = false := rfl
  simp [importStatus, hj, MsgQuery.msg_id, MsgQuery.meta_msg_id, h3, hn]

/-- C4 (code evaluated at the failing input): on the store left by the webhook after it ingested
`hiEntry`, a status entry whose `id` and `meta_msg_id` are both empty is rejected by
`PUT /api/status` and skipped by the batch import, but the webhook applies it: the stored
Message, whose `meta_msg_id` is the empty string, gets status "read" and is broadcast. -/
theorem c4_webhook_applies_keyless_status :
    postWebhook (fun _ => 7) hiValue emptyState = (⟨200, .ok⟩, hiState) ∧
    putStatus ⟨some "", some "", some "read"⟩ hiState
      = (⟨400, .error "status and id or meta_msg_id are required"⟩, hiState) ∧
    importStatus keylessStatus hiState = hiState ∧
    postWebhook (fun _ => 7) keylessValue hiState
      = (⟨200, .ok⟩,
          { hiState with messages := [{ hiStored with status := "read" }],
                         emitted := [.messagesNew hiStored,
                           .messagesUpdate { hiStored with status := "read" }] }) := by
  decide

/-! ## C5: the unread counter -/

theorem unreadOf_upsertInc_absent (chats : List Chat) (c : String) (n : Option String)
    (h : unreadOf chats c = none) : unreadOf (Chat.upsertInc chats c n) c = some 1 := by
  have hf : chats.find? (fun x => x.wa_id == c) = none := by
    simpa [unreadOf] using h
  simp [unreadOf, Chat.upsertInc, hf, List.find?_append, List.find?]

theorem unreadOf_upsertInc_present (chats : List Chat) (c : String) (n : Option String)
    (k : Nat) (h : unreadOf chats c = some k) :
    unreadOf (Chat.upsertInc chats c n) c = some (k + 1) := by
  cases hf : chats.find? (fun x => x.wa_id == c) with
  | none => simp [unreadOf, hf] at h
  | some x =>
    have hk : x.unreadCount = k := by simpa [unreadOf, hf] using h
    have hm := find?_modifyFirst_same (fun x : Chat => x.wa_id == c)
      (fun x => { x with unreadCount := x.unreadCount + 1 }) chats (fun _ => rfl)
    simp [unreadOf, Chat.upsertInc, hf, hm, hk]

theorem unreadOf_upsert_absent (chats : List Chat) (c : String) (n : Option String)
    (h : unreadOf chats c = none) : unreadOf (Chat.upsert chats c n) c = some 0 := by
  have hf : chats.find? (fun x => x.wa_id == c) = none := by
    simpa [unreadOf] using h
  simp [unreadOf, Chat.upsert, hf, List.find?_append, List.find?]

theorem unreadOf_upsert_present (chats : List Chat) (c d : String) (n : Option String)
    (k : Nat) (h : unreadOf chats d = some k) : unreadOf (Chat.upsert chats c n) d = some k := by
  cases hf : chats.find? (fun x => x.wa_id == c) with
  | some x => simpa [Chat.upsert, hf] using h
  | none =>
    cases hd : chats.find? (fun x => x.wa_id == d) with
    | none => simp [unreadOf, hd] at h
    | some y =>
      have hk : y.unreadCount = k := by simpa [unreadOf, hd] using h
      simp [unreadOf, Chat.upsert, hf, List.find?_append, hd, hk]

theorem unreadOf_resetUnread (chats : List Chat) (c : String) (k : Nat)
    (h : unreadOf chats c = some k) : unreadOf (Chat.resetUnread chats c) c = some 0 := by
  cases hf : chats.find? (fun x => x.wa_id == c) with
  | none => simp [unreadOf, hf] at h
  | some x =>
    have hm := find?_modifyFirst_same (fun x : Chat => x.wa_id == c)
      (fun x => { x with unreadCount := 0 }) chats (fun _ => rfl)
    simp [unreadOf, Chat.resetUnread, hf, hm]

theorem postMessages_created_chats (now : Int) (req : SendRequest) (s : State)
    (h : (postMessages now req s).1.status = 201) :
    (postMessages now req s).2.chats =
      if req.direction.getD "out" == "in" then
        Chat.upsertInc s.chats (req.wa_id.getD "") req.name
      else Chat.upsert s.chats (req.wa_id.getD "") req.name := by
  unfold postMessages at h ⊢
  simp only [] at h ⊢
  split_ifs at h ⊢ <;> try (simp at h)
  all_goals
    unfold Message.create at h ⊢
    cases hc : castDoc _ s.nextId with
    | error e => simp [hc] at h
    | ok m =>
      simp only [hc] at h ⊢
      cases hv : validateEnums m with
      | error e => simp [hv] at h
      | ok u => simp [hv]

/-- Which requests `POST /api/messages` answers with 201: the three checks pass, direction and
kind are values of their enums, and `replyTo` is absent, falsy or castable. -/
theorem postMessages_created_iff (now : Int) (req : SendRequest) (s : State) :
    (postMessages now req s).1.status = 201 ↔
      truthy req.wa_id = true ∧
      (req.type.getD "text" = "text" → truthy req.text = true) ∧
      (req.type.getD "text" = "image" → truthy req.mediaUrl = true) ∧
      (req.direction.getD "out" = "in" ∨ req.direction.getD "out" = "out") ∧
      (req.type.getD "text" = "text" ∨ req.type.getD "text" = "image") ∧
      (∀ raw, req.replyTo = some (.uncastable raw) → raw = "") := by
  cases hw : truthy req.wa_id with
  | false => simp [postMessages, hw]
  | true =>
    by_cases ht : req.type.getD "text" = "text"
    · cases hx : truthy req.text with
      | false => simp [postMessages, hw, ht, hx]
      | true =>
        rcases hr : req.replyTo with _ | ⟨id⟩ | ⟨raw⟩
        · by_cases hd : req.direction.getD "out" = "in" ∨ req.direction.getD "out" = "out"
          · rcases hd with hd | hd <;>
              simp [postMessages, hw, ht, hx, hr, hd, replyToOrNull, Message.create, castDoc,
                validateEnums]
          · have hd' := not_or.mp hd
            simp [postMessages, hw, ht, hx, hr, hd'.1, hd'.2, replyToOrNull, Message.create,
              castDoc, validateEnums]
        · by_cases hd : req.direction.getD "out" = "in" ∨ req.direction.getD "out" = "out"
          · rcases hd with hd | hd <;>
              simp [postMessages, hw, ht, hx, hr, hd, replyToOrNull, Message.create, castDoc,
                validateEnums]
          · have hd' := not_or.mp hd
            simp [postMessages, hw, ht, hx, hr, hd'.1, hd'.2, replyToOrNull, Message.create,
              castDoc, validateEnums]
        · by_cases h0 : raw = ""
          · by_cases hd : req.direction.getD "out" = "in" ∨ req.direction.getD "out" = "out"
            · rcases hd with hd | hd <;>
                simp [postMessages, hw, ht, hx, hr, hd, h0, replyToOrNull, Message.create,
                  castDoc, validateEnums]
            · have hd' := not_or.mp hd
              simp [postMessages, hw, ht, hx, hr, hd'.1, hd'.2, h0, replyToOrNull,
                Message.create, castDoc, validateEnums]
          · simp [postMessages, hw, ht, hx, hr, h0, replyToOrNull, Message.create, castDoc]
    · by_cases hi : req.type.getD "text" = "image"
      · cases hx : truthy req.mediaUrl with
        | false => simp [postMessages, hw, ht, hi, hx]
        | true =>
          rcases hr : req.replyTo with _ | ⟨id⟩ | ⟨raw⟩
          · by_cases hd : req.direction.getD "out" = "in" ∨ req.direction.getD "out" = "out"
            · rcases hd with hd | hd <;>
                simp [postMessages, hw, ht, hi, hx, hr, hd, replyToOrNull, Message.create, castDoc,
                  validateEnums]
            · have hd' := not_or.mp hd
              simp [postMessages, hw, ht, hi, hx, hr, hd'.1, hd'.2, replyToOrNull, Message.create,
                castDoc, validateEnums]
          · by_cases hd : req.direction.getD "out" = "in" ∨ req.direction.getD "out" = "out"
            · rcases hd with hd | hd <;>
                simp [postMessages, hw, ht, hi, hx, hr, hd, replyToOrNull, Message.create, castDoc,
                  validateEnums]
            · have hd' := not_or.mp hd
              simp [postMessages, hw, ht, hi, hx, hr, hd'.1, hd'.2, replyToOrNull, Message.create,
                castDoc, validateEnums]
          · by_cases h0 : raw = ""
            · by_cases hd : req.direction.getD "out" = "in" ∨ req.direction.getD "out" = "out"
              · rcases hd with hd | hd <;>
                  simp [postMessages, hw, ht, hi, hx, hr, hd, h0, replyToOrNull, Message.create,
                    castDoc, validateEnums]
              · have hd' := not_or.mp hd
                simp [postMessages, hw, ht, hi, hx, hr, hd'.1, hd'.2, h0, replyToOrNull,
                  Message.create, castDoc, validateEnums]
            · simp [postMessages, hw, ht, hi, hx, hr, h0, replyToOrNull, Message.create, castDoc]
      · by_cases hd : req.direction.getD "out" = "in" ∨ req.direction.getD "out" = "out"
        · rcases hd with hd | hd <;>
            cases hr : replyToOrNull req.replyTo with
            | none =>
              simp [postMessages, hw, ht, hi, hr, hd, Message.create, castDoc, validateEnums]
            | some r =>
              cases r <;>
              simp [postMessages, hw, ht, hi, hr, hd, Message.create, castDoc, validateEnums]
        · have hd' := not_or.mp hd
          cases hr : replyToOrNull req.replyTo with
          | none =>
            simp [postMessages, hw, ht, hi, hr, hd'.1, hd'.2, Message.create, castDoc,
              validateEnums]
          | some r =>
            cases r <;>
            simp [postMessages, hw, ht, hi, hr, hd'.1, hd'.2, Message.create, castDoc,
              validateEnums]

/-- An inbound request whose `replyTo` is the empty string is created: `replyTo || null` stores
no reply reference, and the unread counter of the new conversation is 1. -/
theorem postMessages_with_empty_replyTo_is_created :
    (postMessages 7 { inboundSend with replyTo := some (.uncastable "") } emptyState).1.status
      = 201 ∧
    unreadOf (postMessages 7 { inboundSend with replyTo := some (.uncastable "") }
      emptyState).2.chats "555" = some 1 := by
  decide

/-- C5: (1) for a conversation id `c` without a Conversation record, an inbound message creation
gives unreadCount 1, a second one gives 2, `markRead` gives 0 and an outbound creation after it
leaves 0; (2) an inbound creation adds exactly one to an existing counter; (3) an outbound
creation changes no existing counter and creates a missing Conversation with counter 0;
(4) `markRead` sets an existing counter to 0. A creation is a `POST /api/messages` answered
201; `postMessages_created_iff` says which requests are. -/
theorem c5_unread_counter :
    (∀ (s : State) (c : String) (r1 r2 r3 : SendRequest) (n1 n2 n3 : Int),
      unreadOf s.chats c = none →
      r1.wa_id = some c → r1.direction = some "in" →
      r2.wa_id = some c → r2.direction = some "in" →
      r3.wa_id = some c → (r3.direction = none ∨ r3.direction = some "out") →
      (postMessages n1 r1 s).1.status = 201 →
      (postMessages n2 r2 (postMessages n1 r1 s).2).1.status = 201 →
      (postMessages n3 r3
        (putChatRead c (postMessages n2 r2 (postMessages n1 r1 s).2).2).2).1.status = 201 →
      unreadOf (postMessages n1 r1 s).2.chats c = some 1 ∧
      unreadOf (postMessages n2 r2 (postMessages n1 r1 s).2).2.chats c = some 2 ∧
      unreadOf (putChatRead c (postMessages n2 r2 (postMessages n1 r1 s).2).2).2.chats c
        = some 0 ∧
      unreadOf (postMessages n3 r3
        (putChatRead c (postMessages n2 r2 (postMessages n1 r1 s).2).2).2).2.chats c
        = some 0) ∧
    (∀ (s : State) (c : String) (r : SendRequest) (n : Int) (k : Nat),
      r.wa_id = some c → r.direction = some "in" → (postMessages n r s).1.status = 201 →
      unreadOf s.chats c = some k → unreadOf (postMessages n r s).2.chats c = some (k + 1)) ∧
    (∀ (s : State) (c d : String) (r : SendRequest) (n : Int) (k : Nat),
      r.wa_id = some c → (r.direction = none ∨ r.direction = some "out") →
      (postMessages n r s).1.status = 201 →
      (unreadOf s.chats d = some k → unreadOf (postMessages n r s).2.chats d = some k) ∧
      (unreadOf s.chats c = none → unreadOf (postMessages n r s).2.chats c = some 0)) ∧
    (∀ (s : State) (c : String) (k : Nat),
      unreadOf s.chats c = some k → unreadOf (putChatRead c s).2.chats c = some 0) := by
  have hin : ∀ (s : State) (c : String) (r : SendRequest) (n : Int),
      r.wa_id = some c → r.direction = some "in" → (postMessages n r s).1.status = 201 →
      (postMessages n r s).2.chats = Chat.upsertInc s.chats c r.name := by
    intro s c r n hw hd h
    rw [postMessages_created_chats n r s h]
    simp [hw, hd]
  have hout : ∀ (s : State) (c : String) (r : SendRequest) (n : Int),
      r.wa_id = some c → (r.direction = none ∨ r.direction = some "out") →
      (postMessages n r s).1.status = 201 →
      (postMessages n r s).2.chats = Chat.upsert s.chats c r.name := by
    intro s c r n hw hd h
    rw [postMessages_created_chats n r s h]
    rcases hd with hd | hd <;> simp [hw, hd]
  refine ⟨?_, ?_, ?_, ?_⟩
  · intro s c r1 r2 r3 n1 n2 n3 h0 hw1 hd1 hw2 hd2 hw3 hd3 a1 a2 a4
    have e1 : unreadOf (postMessages n1 r1 s).2.chats c = some 1 := by
      rw [hin s c r1 n1 hw1 hd1 a1]
      exact unreadOf_upsertInc_absent _ _ _ h0
    have e2 : unreadOf (postMessages n2 r2 (postMessages n1 r1 s).2).2.chats c = some 2 := by
      rw [hin _ c r2 n2 hw2 hd2 a2]
      exact unreadOf_upsertInc_present _ _ _ 1 e1
    have e3 : unreadOf (putChatRead c (postMessages n2 r2 (postMessages n1 r1 s).2).2).2.chats c
        = some 0 := unreadOf_resetUnread _ _ 2 e2
    refine ⟨e1, e2, e3, ?_⟩
    rw [hout _ c r3 n3 hw3 hd3 a4]
    exact unreadOf_upsert_present _ _ _ _ 0 e3
  · intro s c r n k hw hd h hk
    rw [hin s c r n hw hd h]
    exact unreadOf_upsertInc_present _ _ _ k hk
  · intro s c d r n k hw hd h
    rw [hout s c r n hw hd h]
    exact ⟨fun hk => unreadOf_upsert_present _ _ _ _ k hk,
      fun h0 => unreadOf_upsert_absent _ _ _ h0⟩
  · intro s c k hk
    exact unreadOf_resetUnread _ _ k hk

/-- Witness of C5: two inbound texts, `markRead` and one outbound text for "555" on the store
that knows only conversation "111". -/
theorem c5_unread_counter_witness :
    unreadOf (postMessages 7 inboundSend hiState).2.chats "555" = some 1 ∧
    unreadOf (postMessages 8 inboundSend (postMessages 7 inboundSend hiState).2).2.chats "555"
      = some 2 ∧
    unreadOf (putChatRead "555"
      (postMessages 8 inboundSend (postMessages 7 inboundSend hiState).2).2).2.chats "555"
      = some 0 ∧
    unreadOf (postMessages 9 outboundSend (putChatRead "555"
      (postMessages 8 inboundSend (postMessages 7 inboundSend hiState).2).2).2).2.chats "555"
      = some 0 :=
  c5_unread_counter.1 hiState "555" inboundSend inboundSend outboundSend 7 8 9
    (by decide) rfl rfl rfl rfl rfl (Or.inl rfl) (by decide) (by decide) (by decide)

/-! ## C6: the order of the conversation summaries -/

theorem latest_eq_none (l : List Message) : latest l = none ↔ l = [] := by
  cases l with
  | nil => simp [latest]
  | cons m rest =>
    cases h : latest rest with
    | none => simp [latest, h]
    | some r => by_cases hlt : m.timestamp < r.timestamp <;> simp [latest, h, hlt]

theorem latest_spec (l : List Message) (x : Message) (h : latest l = some x) :
    x ∈ l ∧ ∀ y ∈ l, y.timestamp ≤ x.timestamp := by
  induction l generalizing x with
  | nil => simp [latest] at h
  | cons m rest ih =>
    cases hr : latest rest with
    | none =>
      have hx : m = x := by simpa [latest, hr] using h
      have hnil := (latest_eq_none rest).mp hr
      subst hx hnil
      simp
    | some r =>
      obtain ⟨hmem, hmax⟩ := ih r hr
      by_cases hlt : m.timestamp < r.timestamp
      · have hx : r = x := by simpa [latest, hr, hlt] using h
        subst hx
        refine ⟨List.mem_cons_of_mem _ hmem, ?_⟩
        intro y hy
        rcases List.mem_cons.mp hy with rfl | hy
        · exact le_of_lt hlt
        · exact hmax y hy
      · have hx : m = x := by simpa [latest, hr, hlt] using h
        subst hx
        refine ⟨List.mem_cons_self _ _, ?_⟩
        intro y hy
        rcases List.mem_cons.mp hy with rfl | hy
        · exact le_refl _
        · exact le_trans (hmax y hy) (not_lt.mp hlt)

theorem summarize_lastMessage_none (s : State) (chat : Chat) :
    (summarize s chat).lastMessage = none ↔ ∀ m ∈ s.messages, m.wa_id ≠ chat.wa_id := by
  simp [summarize, latest_eq_none, List.filter_eq_nil_iff]

theorem summarize_lastMessage_some (s : State) (chat : Chat) (p : Preview)
    (h : (summarize s chat).lastMessage = some p) :
    (∃ m ∈ s.messages, m.wa_id = chat.wa_id ∧ m.timestamp = p.timestamp) ∧
      ∀ m ∈ s.messages, m.wa_id = chat.wa_id → m.timestamp ≤ p.timestamp := by
  cases hl : latest (s.messages.filter (fun m => m.wa_id == chat.wa_id)) with
  | none => simp [summarize, hl] at h
  | some x =>
    obtain ⟨hmem, hmax⟩ := latest_spec _ x hl
    have hp : p.timestamp = x.timestamp := by
      have h2 := h
      simp only [summarize, hl, Option.map_some', Option.some.injEq] at h2
      rw [← h2]
    have hx := List.mem_filter.mp hmem
    refine ⟨⟨x, hx.1, by simpa using hx.2, hp.symm⟩, ?_⟩
    intro m hm hw
    rw [hp]
    exact hmax m (List.mem_filter.mpr ⟨hm, by simpa using hw⟩)

/-- C6 (amended): the answer of `GET /api/chats` is a rearrangement of the summaries of the stored
chats, ordered by descending sort key, where the key of a conversation is the timestamp of its
most recent Message (the greatest timestamp among its Messages) and the key of a conversation
with no Message (null preview) is the epoch, 0. Hence a conversation with no Message appears
after every conversation whose most recent Message is later than the epoch. -/
theorem c6_summaries_sorted_by_latest_timestamp (s : State) :
    (getChats s).Perm (s.chats.map (summarize s)) ∧
    (getChats s).Pairwise (fun a b => sortKey b ≤ sortKey a) ∧
    (∀ chat : Chat, (summarize s chat).lastMessage = none ↔
      ∀ m ∈ s.messages, m.wa_id ≠ chat.wa_id) ∧
    (∀ (chat : Chat) (p : Preview), (summarize s chat).lastMessage = some p →
      (∃ m ∈ s.messages, m.wa_id = chat.wa_id ∧ m.timestamp = p.timestamp) ∧
      ∀ m ∈ s.messages, m.wa_id = chat.wa_id → m.timestamp ≤ p.timestamp) ∧
    (∀ (i j : Nat) (hi : i < (getChats s).length) (hj : j < (getChats s).length)
      (p : Preview), (getChats s)[i].lastMessage = none →
      (getChats s)[j].lastMessage = some p → 0 < p.timestamp → j < i) := by
  have hsorted : (getChats s).Pairwise (fun a b => sortKey b ≤ sortKey a) :=
    List.sorted_insertionSort summaryOrder _
  refine ⟨List.perm_insertionSort _ _, hsorted, summarize_lastMessage_none s,
    summarize_lastMessage_some s, ?_⟩
  intro i j hi hj p hnone hsome hpos
  by_contra hji
  have hij : i < j := by
    rcases Nat.lt_or_ge i j with h | h
    · exact h
    · have : i = j := by omega
      subst this
      rw [hnone] at hsome
      cases hsome
  have hle := List.pairwise_iff_getElem.mp hsorted i j hi hj hij
  simp [sortKey, hnone, hsome] at hle
  omega

/-- Witness of C6 (amended): conversation "000" has no Message and follows "111", whose only
Message is later than the epoch. -/
theorem c6_summaries_sorted_by_latest_timestamp_witness :
    getChats busyState =
      [⟨"111", "111", 1, some ⟨"text", "hi", none, none, 1000000, "delivered", "in"⟩⟩,
        ⟨"000", "000", 0, none⟩] ∧ (0 : Nat) < 1 :=
  ⟨by decide,
    (c6_summaries_sorted_by_latest_timestamp busyState).2.2.2.2
      1 0 (by decide) (by decide) ⟨"text", "hi", none, none, 1000000, "delivered", "in"⟩
      (by decide) (by decide) (by decide)⟩

/-- C6 as stated fails: after contact "000" was added and the entry from "111" with timestamp
"-1" was ingested, conversation "111" has a Message, dated one second before the epoch, and
conversation "000" has none, yet "000" is listed first. -/
theorem c6_counterexample :
    (postWebhook (fun _ => 7) ⟨none, none, some [earlyEntry], none⟩
      (postContacts ⟨some "000", none, none⟩ emptyState).2).2 = quietState ∧
    getChats quietState =
      [⟨"000", "000", 0, none⟩,
        ⟨"111", "111", 1, some ⟨"text", "hi", none, none, -1000, "delivered", "in"⟩⟩] ∧
    ¬ NoMessageLast (getChats quietState) := by
  have h : getChats quietState =
      [⟨"000", "000", 0, none⟩,
        ⟨"111", "111", 1, some ⟨"text", "hi", none, none, -1000, "delivered", "in"⟩⟩] := by
    decide
  refine ⟨by decide, h, ?_⟩
  rw [h]
  intro hc
  have := hc 0 1 (by decide) (by decide) rfl (by decide)
  omega

/-! ## C7: validation of `POST /api/messages` -/

/-- C7: a `POST /api/messages` request whose `wa_id` is missing or empty, or whose kind is text
(given or by default) with a missing or empty text, or whose kind is image with a missing or
empty `mediaUrl`, is answered 400 with an error message and leaves the whole state as it was:
no Message, no chat change, no broadcast. -/
theorem c7_invalid_send_is_rejected_without_effect (now : Int) (req : SendRequest) (s : State)
    (h : truthy req.wa_id = false ∨
      ((req.type = none ∨ req.type = some "text") ∧ truthy req.text = false) ∨
      (req.type = some "image" ∧ truthy req.mediaUrl = false)) :
    (postMessages now req s).2 = s ∧ (postMessages now req s).1.status = 400 ∧
      ∃ msg, (postMessages now req s).1.body = .error msg := by
  cases hw : truthy req.wa_id with
  | false => simp [postMessages, hw]
  | true =>
    rcases h with h | ⟨ht, hx⟩ | ⟨ht, hx⟩
    · rw [hw] at h; cases h
    · rcases ht with ht | ht <;> simp [postMessages, hw, ht, hx]
    · simp [postMessages, hw, ht, hx]

/-- Witness of C7: a text request without text. -/
theorem c7_invalid_send_is_rejected_without_effect_witness :
    (postMessages 7 { blankSend with wa_id := some "555" } hiState).2 = hiState ∧
    (postMessages 7 { blankSend with wa_id := some "555" } hiState).1.status = 400 ∧
    ∃ msg, (postMessages 7 { blankSend with wa_id := some "555" } hiState).1.body
      = .error msg :=
  c7_invalid_send_is_rejected_without_effect 7 { blankSend with wa_id := some "555" } hiState
    (Or.inr (Or.inl ⟨Or.inl rfl, by decide⟩))

/-! ## C8: the webhook on one text entry -/

/-- C8 (amended): a webhook payload whose only message entry has a non-empty sender `f`, a
provider id `i` (non-empty or not), the decimal timestamp `t` with `t * 1000` within the range of a
`Date` (at most 8 640 000 000 000 000 ms), a text body `b` and a kind other than image, and
which has no statuses, posted on a store without messages and chats, is answered 200 and stores
exactly one Message: conversation `f`, direction "in", status "delivered", kind text, text `b`,
msg_id `i`, timestamp `t * 1000` ms; and the only Conversation is `f` with unreadCount 1. -/
theorem c8_webhook_ingests_text_entry (s : State) (clock : Nat → Int) (value : Value)
    (e : MessageEntry) (f i b : String) (t : Nat)
    (hm : s.messages = []) (hc : s.chats = [])
    (hv : value.messages = some [e]) (hst : value.statuses.getD [] = [])
    (hf : e.«from» = some f) (hfne : f ≠ "") (hi : e.id = some i)
    (ht : e.timestamp = some (toString t)) (hb : e.text_body = some b)
    (hty : e.type ≠ some "image") (hrange : t * 1000 ≤ maxTimeValue) :
    ∃ m : Message, (postWebhook clock value s).1 = ⟨200, .ok⟩ ∧
      (postWebhook clock value s).2.messages = [m] ∧
      m.wa_id = f ∧ m.direction = "in" ∧ m.status = "delivered" ∧ m.type = "text" ∧
      m.text = b ∧ m.msg_id = some i ∧ m.timestamp = (t : Int) * 1000 ∧
      (postWebhook clock value s).2.chats
        = [⟨f, some (firstTruthy [value.contacts0_profile_name]), 1⟩] ∧
      (postWebhook clock value s).2.emitted = s.emitted ++ [.messagesNew m] := by
  have hts := entryTimestamp_toString t (clock 0) hrange
  have hw : firstTruthy [some f, value.contacts0_wa_id] = f := by
    simp [firstTruthy, truthy, hfne]
  refine ⟨{ _id := s.nextId, wa_id := f, name := firstTruthy [value.contacts0_profile_name],
            direction := "in", timestamp := (t : Int) * 1000, status := "delivered",
            type := "text", text := b, mediaUrl := none, mediaMime := none, caption := none,
            replyTo := none, msg_id := some i, meta_msg_id := some (firstTruthy [e.context_id]) },
    ?_, ?_, rfl, rfl, rfl, rfl, rfl, rfl, rfl, ?_, ?_⟩ <;>
  simp [postWebhook, hv, hst, webhookMessages, webhookMessage, hf, hi, ht, hb, hty, hts, hw,
    firstTruthy_singleton, Message.create, castDoc, validateEnums, hm, hc, Chat.upsertInc]

/-- Witness of C8 (amended): the entry from "111", id "m1", timestamp "1000", body "hi". -/
theorem c8_webhook_ingests_text_entry_witness :
    ∃ m : Message, (postWebhook (fun _ => 7) hiValue emptyState).1 = ⟨200, .ok⟩ ∧
      (postWebhook (fun _ => 7) hiValue emptyState).2.messages = [m] ∧
      m.wa_id = "111" ∧ m.direction = "in" ∧ m.status = "delivered" ∧ m.type = "text" ∧
      m.text = "hi" ∧ m.msg_id = some "m1" ∧ m.timestamp = ((1000 : Nat) : Int) * 1000 ∧
      (postWebhook (fun _ => 7) hiValue emptyState).2.chats
        = [⟨"111", some (firstTruthy [hiValue.contacts0_profile_name]), 1⟩] ∧
      (postWebhook (fun _ => 7) hiValue emptyState).2.emitted
        = emptyState.emitted ++ [.messagesNew m] :=
  c8_webhook_ingests_text_entry emptyState (fun _ => 7) hiValue hiEntry "111" "m1" "hi" 1000
    rfl rfl rfl rfl rfl (by decide) rfl (by decide) rfl (by decide) (by decide)

/-- C8 as stated fails: the entry with the decimal timestamp 8640000000001 denotes a time
outside the range of a `Date`; the create is refused, the webhook answers 500, and neither a
Message nor a Conversation is stored. -/
theorem c8_counterexample :
    postWebhook (fun _ => 7) ⟨none, none, some [farEntry], none⟩ emptyState
      = (⟨500, .failure .castDate⟩, emptyState) ∧
    farEntry.timestamp = some (toString 8640000000001) := by
  decide

/-! ## C9: a status update that finds nothing -/

/-- C9: `PUT /api/status` that passes validation (status non-empty, one key non-empty) and whose
filter matches no stored Message answers `updated: null` and leaves the whole state as it was:
no record is written or created and nothing is broadcast. -/
theorem c9_status_update_without_match_is_noop (s : State) (req : StatusRequest)
    (hst : truthy req.status = true)
    (hkey : truthy req.id = true ∨ truthy req.meta_msg_id = true)
    (hid : truthy req.id = true → ∀ x ∈ s.messages, x.msg_id ≠ req.id)
    (hmeta : truthy req.id = false → ∀ x ∈ s.messages, x.meta_msg_id ≠ req.meta_msg_id) :
    putStatus req s = (⟨200, .updated true none⟩, s) := by
  cases hI : truthy req.id with
  | true =>
    have hno : ∀ x ∈ s.messages, (MsgQuery.byMsgId req.id).sat x = false := by
      intro x hx
      simpa [MsgQuery.sat] using hid hI x hx
    simp [putStatus, hst, hI, Message.findOneAndUpdateStatus, find?_of_forall_false _ _ hno]
  | false =>
    have hM : truthy req.meta_msg_id = true := by
      rcases hkey with h | h
      · rw [hI] at h; cases h
      · exact h
    have hno : ∀ x ∈ s.messages, (MsgQuery.byMetaMsgId req.meta_msg_id).sat x = false := by
      intro x hx
      simpa [MsgQuery.sat] using hmeta hI x hx
    simp [putStatus, hst, hI, hM, Message.findOneAndUpdateStatus,
      find?_of_forall_false _ _ hno]

/-- Witness of C9: no stored Message carries "m2". -/
theorem c9_status_update_without_match_is_noop_witness :
    putStatus ⟨some "m2", none, some "read"⟩ hiState = (⟨200, .updated true none⟩, hiState) :=
  c9_status_update_without_match_is_noop hiState ⟨some "m2", none, some "read"⟩
    (by decide) (Or.inl (by decide)) (by decide) (by decide)

/-! ## C10: the unread counter under a repeated batch import -/

/-- C10 (code evaluated at the failing input): the batch import of the one file
`{messages:[hiEntry]}` on the empty store stores one Message and sets the unread counter of "111"
to 1; run again on the result, it creates no Message (the stored one matches the dedup key) and
yet raises the counter to 2. -/
theorem c10_reimport_increments_unread :
    main (fun _ _ => 7) 0 [some hiValue] emptyState = (importedState, none) ∧
    main (fun _ _ => 8) 0 [some hiValue] importedState
      = ({ importedState with chats := [⟨"111", some "", 2⟩] }, none) ∧
    importCreate hiValue 8 hiEntry importedState = .ok (hiStored, importedState) := by
  decide

/-! ## C11: which stored record the batch create takes for a duplicate -/

theorem importQuery_cast_ok (v : Value) (now : Int) (e : MessageEntry)
    (ht : entryTimestamp e.timestamp now ≠ none) :
    (importQuery (importDoc v now e)).cast = .ok () := by
  obtain ⟨t, ht⟩ := Option.ne_none_iff_exists'.mp ht
  by_cases h : truthy (some (firstTruthy [e.id, e.message_id])) = true
  · simp [importQuery, importDoc, h, MsgQuery.cast]
  · simp [importQuery, importDoc, h, MsgQuery.cast, ht]

theorem importCreate_of_find_some (s : State) (v : Value) (now : Int) (e : MessageEntry)
    (ht : entryTimestamp e.timestamp now ≠ none) (m : Message)
    (hf : s.messages.find? (importQuery (importDoc v now e)).sat = some m) :
    importCreate v now e s = .ok (m, s) := by
  obtain ⟨fresh, hfresh, -, -⟩ := castDoc_importDoc_ok v now e s.nextId ht
  simp [importCreate, Message.findOneAndUpsert, importQuery_cast_ok v now e ht, hfresh, hf]

theorem importCreate_of_find_none (s : State) (v : Value) (now : Int) (e : MessageEntry)
    (fresh : Message) (hfresh : castDoc (importDoc v now e) s.nextId = .ok fresh)
    (ht : entryTimestamp e.timestamp now ≠ none)
    (hf : s.messages.find? (importQuery (importDoc v now e)).sat = none) :
    importCreate v now e s
      = .ok (fresh, { s with messages := s.messages ++ [fresh], nextId := s.nextId + 1 }) := by
  simp [importCreate, Message.findOneAndUpsert, importQuery_cast_ok v now e ht, hfresh, hf]

theorem importQuery_sat_iff (v : Value) (now : Int) (e : MessageEntry) (ts : Int)
    (ht : entryTimestamp e.timestamp now = some ts) (x : Message) :
    (importQuery (importDoc v now e)).sat x = true ↔
      if firstTruthy [e.id, e.message_id] = "" then
        x.wa_id = firstTruthy [e.«from», v.contacts0_wa_id, e.author] ∧
        x.text = firstTruthy [e.text_body, e.button_text, e.order_title, e.caption] ∧
        x.timestamp = ts
      else x.msg_id = some (firstTruthy [e.id, e.message_id]) := by
  by_cases h : firstTruthy [e.id, e.message_id] = ""
  · simp [importQuery, importDoc, truthy, h, MsgQuery.sat, ht, and_assoc]
  · simp [importQuery, importDoc, truthy, h, MsgQuery.sat]

theorem truthy_some_eq_false_iff (i : String) : truthy (some i) = false ↔ i = "" := by
  simp [truthy]

theorem specDedupKey_of_truthy (m : Message) (h : truthy m.msg_id = true) :
    specDedupKey m = .primary (m.msg_id.getD "") := by
  simp [specDedupKey, h]

theorem specDedupKey_of_falsy (m : Message) (h : truthy m.msg_id = false) :
    specDedupKey m = .composite m.wa_id m.text m.timestamp := by
  simp [specDedupKey, h]

theorem castDoc_importDoc_fields (v : Value) (now : Int) (e : MessageEntry) (id : Nat)
    (fresh : Message) (ts : Int) (hts : entryTimestamp e.timestamp now = some ts)
    (hfresh : castDoc (importDoc v now e) id = .ok fresh) :
    fresh.msg_id = some (firstTruthy [e.id, e.message_id]) ∧
    fresh.wa_id = firstTruthy [e.«from», v.contacts0_wa_id, e.author] ∧
    fresh.text = firstTruthy [e.text_body, e.button_text, e.order_title, e.caption] ∧
    fresh.timestamp = ts := by
  simp only [castDoc, importDoc, hts, Except.ok.injEq] at hfresh
  subst hfresh
  exact ⟨rfl, rfl, rfl, rfl⟩

theorem specDedupKey_eq_imp_sat (v : Value) (now : Int) (e : MessageEntry) (id : Nat)
    (fresh x : Message) (hfresh : castDoc (importDoc v now e) id = .ok fresh)
    (hk : specDedupKey x = specDedupKey fresh) :
    (importQuery (importDoc v now e)).sat x = true := by
  cases hts : entryTimestamp e.timestamp now with
  | none => simp [castDoc, importDoc, hts] at hfresh
  | some ts =>
    obtain ⟨hmsg, hwa, htext, htime⟩ := castDoc_importDoc_fields v now e id fresh ts hts hfresh
    rw [importQuery_sat_iff v now e ts hts x]
    cases hi : truthy (some (firstTruthy [e.id, e.message_id])) with
    | false =>
      have hfk := specDedupKey_of_falsy fresh (by rw [hmsg]; exact hi)
      have h := (truthy_some_eq_false_iff _).mp hi
      rw [if_pos h]
      cases hx : truthy x.msg_id with
      | false =>
        rw [specDedupKey_of_falsy x hx, hfk, hwa, htext, htime] at hk
        injection hk with h1 h2 h3
        exact ⟨h1, h2, h3⟩
      | true =>
        rw [specDedupKey_of_truthy x hx, hfk] at hk
        cases hk
    | true =>
      have hfk := specDedupKey_of_truthy fresh (by rw [hmsg]; exact hi)
      have h : ¬ firstTruthy [e.id, e.message_id] = "" := by
        intro h0
        rw [(truthy_some_eq_false_iff _).mpr h0] at hi
        cases hi
      rw [if_neg h]
      cases hx : truthy x.msg_id with
      | false =>
        rw [specDedupKey_of_falsy x hx, hfk] at hk
        cases hk
      | true =>
        rw [specDedupKey_of_truthy x hx, hfk, hmsg] at hk
        injection hk with h1
        cases hm : x.msg_id with
        | none => rw [hm] at hx; cases hx
        | some k =>
          rw [hm] at h1
          exact congrArg some h1

/-- C11 (amended): in the batch import's message-create step, for every store and every entry
whose timestamp is absent or denotes a valid date, the create returns an existing record
unchanged if and only if a stored record matches its filter (the same primary key when the
record's primary key is non-empty, otherwise the same conversation id, text and timestamp,
whatever the stored record's own primary key); the record returned is the first stored record
that matches; otherwise the cast record is inserted as the one new record. A stored record with
the same dedup key always matches. A record with an empty primary key is not inserted when a
stored record shares its conversation id, text and timestamp: a stored record with these three
fields is returned. -/
theorem c11_create_dedups_by_filter (s : State) (v : Value) (now : Int) (e : MessageEntry)
    (ts : Int) (ht : entryTimestamp e.timestamp now = some ts) :
    CreateDedupsByFilter s v now e := by
  have hne : entryTimestamp e.timestamp now ≠ none := by rw [ht]; exact Option.some_ne_none ts
  obtain ⟨fresh, hfresh, -, -⟩ := castDoc_importDoc_ok v now e s.nextId hne
  obtain ⟨hmsg, hwa, htext, htime⟩ :=
    castDoc_importDoc_fields v now e s.nextId fresh ts ht hfresh
  have hsat : ∀ x : Message, (importQuery (importDoc v now e)).sat x = true ↔
      if firstTruthy [e.id, e.message_id] = "" then
        x.wa_id = fresh.wa_id ∧ x.text = fresh.text ∧ x.timestamp = fresh.timestamp
      else x.msg_id = fresh.msg_id := by
    intro x
    rw [importQuery_sat_iff v now e ts ht x, hmsg, hwa, htext, htime]
  have hfirst : (∃ x ∈ s.messages, (importQuery (importDoc v now e)).sat x = true) →
      ∃ pre x post, s.messages = pre ++ x :: post ∧
        (importQuery (importDoc v now e)).sat x = true ∧
        (∀ y ∈ pre, (importQuery (importDoc v now e)).sat y = false) ∧
        importCreate v now e s = .ok (x, s) := by
    rintro ⟨x, hx, hx2⟩
    cases hf : s.messages.find? (importQuery (importDoc v now e)).sat with
    | none =>
      have := List.find?_eq_none.mp hf x hx
      exact absurd hx2 this
    | some m =>
      obtain ⟨pre, post, hl, hm, hpre⟩ := find?_split _ _ _ hf
      exact ⟨pre, m, post, hl, hm, hpre, importCreate_of_find_some s v now e hne m hf⟩
  have hback : (∃ x ∈ s.messages, (importQuery (importDoc v now e)).sat x = true) →
      ∃ x ∈ s.messages, (importQuery (importDoc v now e)).sat x = true ∧
        importCreate v now e s = .ok (x, s) := by
    intro h
    obtain ⟨pre, x, post, hl, hx, -, hc⟩ := hfirst h
    exact ⟨x, by rw [hl]; simp, hx, hc⟩
  have hret : ∀ x : Message, importCreate v now e s = .ok (x, s) →
      x ∈ s.messages ∧ (importQuery (importDoc v now e)).sat x = true := by
    intro x hc
    cases hf : s.messages.find? (importQuery (importDoc v now e)).sat with
    | none =>
      rw [importCreate_of_find_none s v now e fresh hfresh hne hf] at hc
      injection hc with hc
      injection hc with _ hs
      have := congrArg State.nextId hs
      simp at this
    | some m =>
      rw [importCreate_of_find_some s v now e hne m hf] at hc
      injection hc with hc
      injection hc with hmx _
      subst hmx
      obtain ⟨pre, post, hl, hm, -⟩ := find?_split _ _ _ hf
      exact ⟨by rw [hl]; simp, hm⟩
  refine ⟨fresh, hfresh, hsat, hfirst, ?_, hret, ⟨?_, ?_⟩, ?_, ?_⟩
  · intro hno
    exact importCreate_of_find_none s v now e fresh hfresh hne (find?_of_forall_false _ _ hno)
  · rintro ⟨x, -, hc⟩
    exact ⟨x, hret x hc⟩
  · intro h
    obtain ⟨x, hx, -, hc⟩ := hback h
    exact ⟨x, hx, hc⟩
  · rintro ⟨x, hx, hk⟩
    exact hback ⟨x, hx, specDedupKey_eq_imp_sat v now e s.nextId fresh x hfresh hk⟩
  · rintro h0 ⟨x, hx, hfields⟩
    have hx2 : (importQuery (importDoc v now e)).sat x = true := by
      rw [hsat x, if_pos h0]
      exact hfields
    obtain ⟨y, hy, hy2, hc⟩ := hback ⟨x, hx, hx2⟩
    rw [hsat y, if_pos h0] at hy2
    exact ⟨y, hy, hy2.1, hy2.2.1, hy2.2.2, hc⟩

/-- Witness of C11 (amended): the entry without provider id on the store that holds the Message
"m1" of the same sender, text and timestamp. -/
theorem c11_create_dedups_by_filter_witness :
    CreateDedupsByFilter importedState hiValue 8 noIdEntry :=
  c11_create_dedups_by_filter importedState hiValue 8 noIdEntry 1000000 (by decide)

/-- C11 as stated fails: the store left by the import of `hiEntry` holds one record, with the
non-empty primary key "m1"; the entry with the same sender, text and timestamp and no provider
id has a composite dedup key that no stored record has, yet the create returns the stored record
and inserts nothing. An entry whose timestamp does not parse is neither matched nor inserted. -/
theorem c11_counterexample :
    main (fun _ _ => 7) 0 [some hiValue] emptyState = (importedState, none) ∧
    importCreate hiValue 8 noIdEntry importedState = .ok (hiStored, importedState) ∧
    (∀ x ∈ importedState.messages, truthy x.msg_id = true) ∧
    ¬ CreateDedupsBySpecKey importedState hiValue 8 noIdEntry ∧
    ¬ CreateDedupsBySpecKey emptyState hiValue 7 undatedEntry := by
  refine ⟨by decide, by decide, by decide, ?_, ?_⟩
  · rintro ⟨fresh, hfresh, hiff, -⟩
    have hc : castDoc (importDoc hiValue 8 noIdEntry) importedState.nextId
        = .ok { hiStored with _id := 1, msg_id := some "" } := by decide
    rw [hc] at hfresh
    injection hfresh with hfresh
    subst hfresh
    obtain ⟨x, hx, hk⟩ := hiff.mp ⟨hiStored, by decide, by decide⟩
    have hxe : x = hiStored := by simpa [importedState] using hx
    subst hxe
    revert hk
    decide
  · rintro ⟨fresh, hfresh, -⟩
    have hc : castDoc (importDoc hiValue 7 undatedEntry) emptyState.nextId
        = .error .castDate := by decide
    rw [hc] at hfresh
    cases hfresh

end WhatsappClone
